import Mathlib

/-!
Verification of the NeverForgetVPS monitoring library against its
natural-language specification.

The development shallowly embeds the Go sources:
  * `formatPaymentMessage`, `sendMessage`, `checkPaymentDates`,
    `runPaymentDateCheck`, `NewVPSMonitor`, `Stop` from the root package;
  * `GetNextPaymentDate` of the vdsina and oneprovider integrations.

Machine time (`time.Time`, `time.Duration`) is embedded as `Int`
nanoseconds since the Unix epoch, in UTC.  Go's
`int(paymentDate.Sub(now).Hours() / 24)` is integer truncation toward
zero of the nanosecond difference divided by a day's nanoseconds, which
is `Int.tdiv`.  Network I/O is external input: each provider's
`GetNextPaymentDate` is embedded as a function of the decoded upstream
response it would have received.  `panic` in Go construction is embedded
as `Except.error` carrying the panic message.
-/

/-- Nanoseconds in 24 hours, the divisor Go's `Hours() / 24` amounts to. -/
def nsPerDay : Int := 86400000000000

/-- Embedding of Go `time.Time`: nanoseconds since the Unix epoch, UTC. -/
structure GoTime where
  ns : Int
deriving DecidableEq, Repr

/-- Go `dueDate.Before(other)`: strictly earlier instant. -/
def GoTime.before (a b : GoTime) : Bool := a.ns < b.ns

/-- `daysUntil := int(paymentDate.Sub(now).Hours() / 24)` from
`formatPaymentMessage`: truncated-toward-zero division of the
nanosecond difference by one day. -/
def daysUntilOf (paymentDate now : GoTime) : Int :=
  Int.tdiv (paymentDate.ns - now.ns) nsPerDay

/-- Civil date from days since the Unix epoch (proleptic Gregorian,
floor conventions), as Go's date computation performs for UTC times.
Returns (year, month, day). -/
def civilFromDays (z0 : Int) : Int × Int × Int :=
  let z := z0 + 719468
  let era := Int.fdiv z 146097
  let doe := z - era * 146097
  let yoe := Int.fdiv (doe - Int.fdiv doe 1460 + Int.fdiv doe 36524 - Int.fdiv doe 146096) 365
  let y := yoe + era * 400
  let doy := doe - (365 * yoe + Int.fdiv yoe 4 - Int.fdiv yoe 100)
  let mp := Int.fdiv (5 * doy + 2) 153
  let d := doy - Int.fdiv (153 * mp + 2) 5 + 1
  let m := mp + (if mp < 10 then 3 else -9)
  (y + (if m ≤ 2 then 1 else 0), m, d)

/-- Days since the Unix epoch of a civil date (inverse of
`civilFromDays`), used when parsing `"2006-01-02"` dates. -/
def daysFromCivil (y0 m d : Int) : Int :=
  let y := y0 - (if m ≤ 2 then 1 else 0)
  let era := Int.fdiv y 400
  let yoe := y - era * 400
  let doy := Int.fdiv (153 * (m + (if 2 < m then -3 else 9)) + 2) 5 + d - 1
  let doe := yoe * 365 + Int.fdiv yoe 4 - Int.fdiv yoe 100 + doy
  era * 146097 + doe - 719468

/-- Zero-pad a number to two digits, as Go's layout fragment `01`/`02`. -/
def pad2 (n : Nat) : String := if n < 10 then "0" ++ toString n else toString n

/-- Zero-pad a year to four digits, as Go's layout fragment `2006`. -/
def pad4 (n : Nat) : String :=
  if n < 10 then "000" ++ toString n
  else if n < 100 then "00" ++ toString n
  else if n < 1000 then "0" ++ toString n
  else toString n

/-- `paymentDate.Format("2006-01-02")` for a UTC time: the ISO
`YYYY-MM-DD` rendering of the time's UTC calendar day. -/
def formatDate (t : GoTime) : String :=
  let day := Int.fdiv t.ns nsPerDay
  let c := civilFromDays day
  pad4 c.1.toNat ++ "-" ++ pad2 c.2.1.toNat ++ "-" ++ pad2 c.2.2.toNat

/-- `formatPaymentMessage` from the root package.  The Go code takes
`now := time.Now().UTC()` ambiently; the embedding passes `now`
explicitly.  Branch structure and message texts are copied from the
source's `switch`. -/
def formatPaymentMessage (providerName : String) (paymentDate now : GoTime) : String :=
  let daysUntil := daysUntilOf paymentDate now
  let dateStr := formatDate paymentDate
  if daysUntil < 0 then
    "🚨🚨🚨 CRITICAL: Provider " ++ providerName ++ " - Payment overdue! Payment date was "
      ++ dateStr ++ " (" ++ toString (-daysUntil) ++ " days ago). Urgent action required!"
  else if daysUntil ≤ 2 then
    "🚨 WARNING: Provider " ++ providerName ++ " - Urgent payment required! Payment due date: "
      ++ dateStr ++ " (" ++ toString daysUntil ++ " day(s) left)"
  else if daysUntil ≤ 5 then
    "⚠️ ATTENTION: Provider " ++ providerName ++ " - Payment due soon! Payment date: "
      ++ dateStr ++ " (" ++ toString daysUntil ++ " days left)"
  else
    "ℹ️ INFO: Provider " ++ providerName ++ " - Next payment date: " ++ dateStr
      ++ " (" ++ toString daysUntil ++ " days left)"

/-- Whether a year is a Gregorian leap year. -/
def isLeapYear (y : Int) : Bool := y % 4 = 0 ∧ (y % 100 ≠ 0 ∨ y % 400 = 0)

/-- Number of days in a month of a given year. -/
def daysIn (y : Int) (m : Nat) : Nat :=
  if m = 2 then (if isLeapYear y then 29 else 28)
  else if m = 4 ∨ m = 6 ∨ m = 9 ∨ m = 11 then 30
  else 31

/-- Numeric value of a decimal digit character. -/
def digitVal (c : Char) : Nat := c.toNat - 48

/-- Go `time.Parse("2006-01-02", s)`: accepts exactly `YYYY-MM-DD` with
decimal digits, validates the month and day ranges, and yields midnight
UTC of that civil date.  Failure carries an error message. -/
def parseDate (s : String) : Except String GoTime :=
  match s.data with
  | [y1, y2, y3, y4, h1, m1, m2, h2, d1, d2] =>
    if y1.isDigit ∧ y2.isDigit ∧ y3.isDigit ∧ y4.isDigit ∧ h1 = '-'
        ∧ m1.isDigit ∧ m2.isDigit ∧ h2 = '-' ∧ d1.isDigit ∧ d2.isDigit then
      let y : Nat := ((digitVal y1 * 10 + digitVal y2) * 10 + digitVal y3) * 10 + digitVal y4
      let mo : Nat := digitVal m1 * 10 + digitVal m2
      let da : Nat := digitVal d1 * 10 + digitVal d2
      if 1 ≤ mo ∧ mo ≤ 12 then
        if 1 ≤ da ∧ da ≤ daysIn y mo then
          .ok ⟨daysFromCivil y mo da * nsPerDay⟩
        else .error "parsing time: day out of range"
      else .error "parsing time: month out of range"
    else .error "parsing time: cannot parse"
  | _ => .error "parsing time: cannot parse"

/-- `GetNextPaymentDate` of the vdsina integration, as a function of the
decoded `accountResponse`'s nullable `forecast` field and of the current
time (Go takes `time.Now()` ambiently).  A `nil` or empty forecast
yields yesterday (`time.Now().AddDate(0, 0, -1)`, one day before now);
otherwise the forecast is parsed with layout `"2006-01-02"` and returned
in UTC, and a parse failure is an error. -/
def vdsinaGetNextPaymentDate (forecast : Option String) (now : GoTime) :
    Except String (Option GoTime) :=
  match forecast with
  | none => .ok (some ⟨now.ns - nsPerDay⟩)
  | some f =>
    if f = "" then .ok (some ⟨now.ns - nsPerDay⟩)
    else
      match parseDate f with
      | .error e => .error ("failed to parse forecast date: " ++ e)
      | .ok t => .ok (some t)

/-- Embedding of the oneprovider `invoice` JSON structure (the `items`
sub-structure is omitted; no field of it is ever read). -/
structure Invoice where
  id : String
  status : String
  creationDate : String
  dueDate : String
  paidDate : String
  subTotal : String
  tax : String
  tax2 : String
  credit : String
  balance : String
deriving Repr

/-- The scan loop of oneprovider's `GetNextPaymentDate`: walk the
invoices keeping the earliest due date among invoices with
`Status == "Unpaid"` and a non-empty `DueDate`; a due date that fails to
parse aborts with an error. -/
def findEarliest : List Invoice → Option GoTime → Except String (Option GoTime)
  | [], earliest => .ok earliest
  | inv :: rest, earliest =>
    if inv.status = "Unpaid" ∧ inv.dueDate ≠ "" then
      match parseDate inv.dueDate with
      | .error e => .error ("failed to parse due date: " ++ e)
      | .ok d =>
        match earliest with
        | none => findEarliest rest (some d)
        | some e0 => if d.before e0 then findEarliest rest (some d) else findEarliest rest (some e0)
    else findEarliest rest earliest

/-- `GetNextPaymentDate` of the oneprovider integration, as a function
of the decoded result of `fetchinvoicesPage` (the invoice list and the
reported `total_pages`).  An empty list yields `none`; otherwise the
earliest unpaid due date (or `none` when no invoice qualifies). -/
def oneproviderGetNextPaymentDate (fetchResult : Except String (List Invoice × Int)) :
    Except String (Option GoTime) :=
  match fetchResult with
  | .error e => .error ("failed to fetch invoices: " ++ e)
  | .ok (invoices, _totalPages) =>
    if invoices.length = 0 then .ok none
    else findEarliest invoices none

/-- The top of oneprovider's `GetNextPaymentDate`: `page := 1`,
`limit := 20`, one single call to `fetchinvoicesPage`.  The fetcher is
the external upstream, a function of the requested page and limit. -/
def oneproviderGetNextPaymentDateFrom
    (fetch : Int → Int → Except String (List Invoice × Int)) :
    Except String (Option GoTime) :=
  oneproviderGetNextPaymentDate (fetch 1 20)

/-- The `VdsinaProvider` struct: its held credential (the HTTP client
holds no observable state). -/
structure VdsinaProvider where
  apiKey : String
deriving DecidableEq, Repr

/-- `vdsina.New`: `nil` for an empty key, a provider otherwise. -/
def vdsinaNew (apiKey : String) : Option VdsinaProvider :=
  if apiKey = "" then none else some ⟨apiKey⟩

/-- `(*VdsinaProvider).IsConfigured` on a non-nil receiver. -/
def VdsinaProvider.isConfigured (p : VdsinaProvider) : Bool := p.apiKey ≠ ""

/-- The `OneProvider` struct: its held credentials. -/
structure OneProviderData where
  apiKey : String
  clientKey : String
deriving DecidableEq, Repr

/-- `oneprovider.New`: `nil` when either key is empty. -/
def oneproviderNew (apiKey clientKey : String) : Option OneProviderData :=
  if apiKey = "" ∨ clientKey = "" then none else some ⟨apiKey, clientKey⟩

/-- `(*OneProvider).IsConfigured` on a non-nil receiver. -/
def OneProviderData.isConfigured (p : OneProviderData) : Bool :=
  p.apiKey ≠ "" ∧ p.clientKey ≠ ""

/-- Go's bounded channel `chan T`: a capacity and the queued elements. -/
structure Chan (T : Type) where
  capacity : Nat
  buffer : List T
deriving Repr

/-- The non-blocking send `select { case ch <- msg: ... default: }`:
enqueue when the buffer is below capacity, otherwise leave the channel
unchanged. -/
def Chan.trySend {T : Type} (c : Chan T) (x : T) : Chan T :=
  if c.buffer.length < c.capacity then { c with buffer := c.buffer ++ [x] } else c

/-- The `Config` struct of the root package.  `checkInterval` is a Go
`time.Duration` in nanoseconds. -/
structure Config where
  vdsinaAPIKey : String
  oneProviderAPIKey : String
  oneProviderClientKey : String
  checkInterval : Int
deriving DecidableEq, Repr

/-- `DefaultCheckInterval = 12 * time.Hour`, in nanoseconds. -/
def defaultCheckInterval : Int := 43200000000000

/-- The `VPSMonitor[T]` struct after construction: the optional
providers, the resolved check interval, the delivery channel, the
converter, and the cancellation flag of the derived context. -/
structure Monitor (T : Type) where
  vdsina : Option VdsinaProvider
  oneProvider : Option OneProviderData
  checkInterval : Int
  messageChan : Chan T
  messageConverter : String → T
  cancelled : Bool

/-- `NewVPSMonitor`.  The caller-supplied channel and converter are
`Option`s so that Go's `nil` arguments are representable; each Go
`panic` is an `Except.error` carrying the panic message, raised in the
source's order before any provider is instantiated and before any
background work exists. -/
def newVPSMonitor {T : Type} (config : Config) (messageChan : Option (Chan T))
    (messageConverter : Option (String → T)) : Except String (Monitor T) :=
  match messageChan with
  | none => .error "messageChan is required"
  | some ch =>
    match messageConverter with
    | none => .error "messageConverter is required"
    | some conv =>
      if (config.oneProviderAPIKey = "" ∨ config.oneProviderClientKey = "")
          ∧ config.vdsinaAPIKey = "" then
        .error "OneProviderAPIKey and OneProviderClientKey or VdsinaAPIKey are required"
      else
        .ok
          { vdsina :=
              if config.vdsinaAPIKey ≠ "" then vdsinaNew config.vdsinaAPIKey else none
            oneProvider :=
              if config.oneProviderAPIKey ≠ "" ∧ config.oneProviderClientKey ≠ "" then
                oneproviderNew config.oneProviderAPIKey config.oneProviderClientKey
              else none
            checkInterval :=
              if config.checkInterval = 0 then defaultCheckInterval else config.checkInterval
            messageChan := ch
            messageConverter := conv
            cancelled := false }

/-- `sendMessage`: convert the text once with the converter, then a
single non-blocking enqueue attempt on the channel.  (The Go `nil`
guards on the channel and converter cannot fire on a constructed
monitor, whose fields are total here.) -/
def sendMessage {T : Type} (m : Monitor T) (text : String) : Monitor T :=
  let msg := m.messageConverter text
  { m with messageChan := m.messageChan.trySend msg }

/-- The notification text the check loop produces for one provider given
that provider's query outcome, mirroring the three arms of the loop body
of `checkPaymentDates`. -/
def providerNotification (name : String) (res : Except String (Option GoTime))
    (now : GoTime) : String :=
  match res with
  | .error e => "Error checking payment date for provider " ++ name ++ ": " ++ e
  | .ok (some nextDate) => formatPaymentMessage name nextDate now
  | .ok none => "Provider " ++ name ++ ": no payment due"

/-- The notifications of one cycle of `checkPaymentDates`: the providers
list is assembled in fixed registration order (Vdsina, then
OneProvider), keeping only non-nil configured providers; each provider
contributes exactly one notification from its own query outcome, errors
included.  The query outcomes are the external inputs of the cycle. -/
def cycleNotifications {T : Type} (m : Monitor T)
    (vdsinaRes oneProviderRes : Except String (Option GoTime)) (now : GoTime) :
    List String :=
  (match m.vdsina with
   | some p => if p.isConfigured then [providerNotification "vdsina" vdsinaRes now] else []
   | none => []) ++
  (match m.oneProvider with
   | some p => if p.isConfigured then [providerNotification "oneprovider" oneProviderRes now] else []
   | none => [])

/-- `checkPaymentDates` as a state transformer: every notification of
the cycle is handed to `sendMessage` in order. -/
def checkPaymentDates {T : Type} (m : Monitor T)
    (vdsinaRes oneProviderRes : Except String (Option GoTime)) (now : GoTime) :
    Monitor T :=
  (cycleNotifications m vdsinaRes oneProviderRes now).foldl sendMessage m

/-- One observable event at the wait point of `runPaymentDateCheck`'s
`select`: the interval ticker fired, or the context was cancelled. -/
inductive LoopEvent
  | tick
  | cancel
deriving DecidableEq, Repr

/-- The `for`/`select` part of `runPaymentDateCheck` over a trace of
wait-point events, collecting the notifications of the cycles it runs;
`env n` is the notification list cycle number `n` would produce (cycles
are numbered from 0, cycle 0 being the initial one).  A tick runs the
next cycle; cancellation returns from the loop, so later events produce
nothing. -/
def loopNotifications (env : Nat → List String) :
    List LoopEvent → Nat → List String
  | [], _ => []
  | .tick :: rest, n => env n ++ loopNotifications env rest (n + 1)
  | .cancel :: _, _ => []

/-- `runPaymentDateCheck` over an event trace: one initial cycle
immediately, then `loopNotifications` on the trace. -/
def runPaymentDateCheck (env : Nat → List String) (events : List LoopEvent) :
    List String :=
  env 0 ++ loopNotifications env events 1

/-- `Stop`: `m.cancel()` on the derived context; a no-op beyond setting
the cancellation flag, safe on any monitor. -/
def stopMonitor {T : Type} (m : Monitor T) : Monitor T :=
  { m with cancelled := true }

/-- First character of a string, used to tell notification shapes apart. -/
def headChar (s : String) : Option Char := s.data.head?

/-! ### Helper lemmas -/

lemma tdiv_neg_of_le_neg {x d : Int} (hd : 0 < d) (hx : x ≤ -d) : Int.tdiv x d < 0 := by
  have h1 : (1 : Int) ≤ Int.tdiv (-x) d := by
    rw [Int.tdiv_eq_ediv (by omega) (by omega), Int.le_ediv_iff_mul_le hd]
    omega
  have h2 : Int.tdiv x d = -Int.tdiv (-x) d := by
    rw [← Int.neg_tdiv, neg_neg]
  omega

lemma daysUntilOf_neg {due now : GoTime} (h : due.ns + nsPerDay ≤ now.ns) :
    daysUntilOf due now < 0 := by
  unfold daysUntilOf
  exact tdiv_neg_of_le_neg (by decide) (by unfold nsPerDay at h ⊢; omega)

lemma formatPaymentMessage_critical (name : String) (due now : GoTime)
    (h : daysUntilOf due now < 0) :
    formatPaymentMessage name due now =
      "🚨🚨🚨 CRITICAL: Provider " ++ name ++ " - Payment overdue! Payment date was "
        ++ formatDate due ++ " (" ++ toString (-(daysUntilOf due now))
        ++ " days ago). Urgent action required!" := by
  unfold formatPaymentMessage
  rw [if_pos h]

lemma formatPaymentMessage_urgent (name : String) (due now : GoTime)
    (h0 : 0 ≤ daysUntilOf due now) (h2 : daysUntilOf due now ≤ 2) :
    formatPaymentMessage name due now =
      "🚨 WARNING: Provider " ++ name ++ " - Urgent payment required! Payment due date: "
        ++ formatDate due ++ " (" ++ toString (daysUntilOf due now) ++ " day(s) left)" := by
  unfold formatPaymentMessage
  rw [if_neg (by omega), if_pos h2]

lemma formatPaymentMessage_attention (name : String) (due now : GoTime)
    (h3 : 3 ≤ daysUntilOf due now) (h5 : daysUntilOf due now ≤ 5) :
    formatPaymentMessage name due now =
      "⚠️ ATTENTION: Provider " ++ name ++ " - Payment due soon! Payment date: "
        ++ formatDate due ++ " (" ++ toString (daysUntilOf due now) ++ " days left)" := by
  unfold formatPaymentMessage
  rw [if_neg (by omega), if_neg (by omega), if_pos h5]

lemma formatPaymentMessage_info (name : String) (due now : GoTime)
    (h6 : 6 ≤ daysUntilOf due now) :
    formatPaymentMessage name due now =
      "ℹ️ INFO: Provider " ++ name ++ " - Next payment date: " ++ formatDate due
        ++ " (" ++ toString (daysUntilOf due now) ++ " days left)" := by
  unfold formatPaymentMessage
  rw [if_neg (by omega), if_neg (by omega), if_neg (by omega)]

lemma headChar_append_left (s t : String) (h : s.data ≠ []) :
    headChar (s ++ t) = headChar s := by
  unfold headChar
  rw [String.data_append]
  cases hd : s.data with
  | nil => exact absurd hd h
  | cons a l => simp

lemma data_append_ne_nil (s t : String) (h : s.data ≠ []) : (s ++ t).data ≠ [] := by
  rw [String.data_append]
  simp [h]

lemma headChar_append3 (a b c : String) (h : a.data ≠ []) :
    headChar (a ++ b ++ c) = headChar a := by
  rw [headChar_append_left _ c (data_append_ne_nil a b h), headChar_append_left a b h]

lemma headChar_append4 (a b c d : String) (h : a.data ≠ []) :
    headChar (a ++ b ++ c ++ d) = headChar a := by
  rw [headChar_append_left _ d (data_append_ne_nil _ c (data_append_ne_nil a b h)),
    headChar_append3 a b c h]

lemma headChar_append7 (a b c d e f g : String) (h : a.data ≠ []) :
    headChar (a ++ b ++ c ++ d ++ e ++ f ++ g) = headChar a := by
  have h2 := data_append_ne_nil a b h
  have h3 := data_append_ne_nil _ c h2
  have h4 := data_append_ne_nil _ d h3
  have h5 := data_append_ne_nil _ e h4
  have h6 := data_append_ne_nil _ f h5
  rw [headChar_append_left _ g h6, headChar_append_left _ f h5, headChar_append_left _ e h4,
    headChar_append_left _ d h3, headChar_append_left _ c h2, headChar_append_left a b h]

/-- Every message produced by `formatPaymentMessage` begins with one of
the three severity glyphs. -/
lemma headChar_formatPaymentMessage (name : String) (due now : GoTime) :
    headChar (formatPaymentMessage name due now) = some '🚨'
      ∨ headChar (formatPaymentMessage name due now) = some '⚠'
      ∨ headChar (formatPaymentMessage name due now) = some 'ℹ' := by
  rcases lt_or_le (daysUntilOf due now) 0 with h | h0
  · exact Or.inl (by
      rw [formatPaymentMessage_critical name due now h,
        headChar_append7 _ _ _ _ _ _ _ (by decide)]
      decide)
  rcases le_or_lt (daysUntilOf due now) 2 with h2 | h2
  · exact Or.inl (by
      rw [formatPaymentMessage_urgent name due now h0 h2,
        headChar_append7 _ _ _ _ _ _ _ (by decide)]
      decide)
  rcases le_or_lt (daysUntilOf due now) 5 with h5 | h5
  · exact Or.inr (Or.inl (by
      rw [formatPaymentMessage_attention name due now (by omega) h5,
        headChar_append7 _ _ _ _ _ _ _ (by decide)]
      decide))
  · exact Or.inr (Or.inr (by
      rw [formatPaymentMessage_info name due now (by omega),
        headChar_append7 _ _ _ _ _ _ _ (by decide)]
      decide))

/-- A notification built from a successful provider query never has the
error-notification shape: it does not begin with the letter `E` that
opens every "Error checking payment date for provider ..." message. -/
lemma headChar_ok_notification_ne (name : String) (v : Option GoTime) (now : GoTime) :
    headChar (providerNotification name (.ok v) now) ≠ some 'E' := by
  cases v with
  | none =>
    show headChar ("Provider " ++ name ++ ": no payment due") ≠ some 'E'
    rw [headChar_append3 _ _ _ (by decide)]
    decide
  | some d =>
    show headChar (formatPaymentMessage name d now) ≠ some 'E'
    rcases headChar_formatPaymentMessage name d now with h | h | h <;> rw [h] <;> decide

/-- An error notification does begin with `E`. -/
lemma headChar_error_notification (name e : String) :
    headChar ("Error checking payment date for provider " ++ name ++ ": " ++ e) = some 'E' := by
  rw [headChar_append4 _ _ _ _ (by decide)]
  decide

/-- `findEarliest` skips every invoice that is not unpaid-with-a-due-date
and returns its accumulator unchanged. -/
lemma findEarliest_skip (invs : List Invoice) (acc : Option GoTime)
    (h : ∀ inv ∈ invs, ¬(inv.status = "Unpaid" ∧ inv.dueDate ≠ "")) :
    findEarliest invs acc = .ok acc := by
  induction invs with
  | nil => rfl
  | cons inv rest ih =>
    unfold findEarliest
    rw [if_neg (h inv (List.mem_cons_self inv rest))]
    exact ih fun i hi => h i (List.mem_cons_of_mem inv hi)

/-! ### Claim theorems -/

/-- C1 (counterexample): the claim fails as stated.  The due date one
hour before now is strictly earlier than now, yet `formatPaymentMessage`
produces the WARNING (urgent) template with `0 day(s) left`, not the
CRITICAL/overdue template (which, at the claim's negated `daysUntil`,
would read `0 days ago`): truncation toward zero sends every due date
less than a full day in the past to `daysUntil = 0`. -/
theorem c1_counterexample :
    (⟨-3600000000000⟩ : GoTime).ns < (⟨0⟩ : GoTime).ns ∧
    formatPaymentMessage "vdsina" ⟨-3600000000000⟩ ⟨0⟩ =
      "🚨 WARNING: Provider vdsina - Urgent payment required! Payment due date: 1969-12-31 (0 day(s) left)" ∧
    formatPaymentMessage "vdsina" ⟨-3600000000000⟩ ⟨0⟩ ≠
      "🚨🚨🚨 CRITICAL: Provider vdsina - Payment overdue! Payment date was 1969-12-31 (0 days ago). Urgent action required!" :=
  ⟨by decide, by decide, by decide⟩

/-- C1 (amended): for every due date at least one full day (24 hours)
before now, `formatPaymentMessage` produces the Critical/overdue
template, with the rendered "days ago" count equal to the negated
`daysUntil` value. -/
theorem c1_overdue_critical (name : String) (due now : GoTime)
    (h : due.ns + nsPerDay ≤ now.ns) :
    daysUntilOf due now < 0 ∧
    formatPaymentMessage name due now =
      "🚨🚨🚨 CRITICAL: Provider " ++ name ++ " - Payment overdue! Payment date was "
        ++ formatDate due ++ " (" ++ toString (-(daysUntilOf due now))
        ++ " days ago). Urgent action required!" :=
  ⟨daysUntilOf_neg h, formatPaymentMessage_critical name due now (daysUntilOf_neg h)⟩

/-- Witness for C1: a due date exactly one day before now renders the
Critical template with "1 days ago". -/
theorem c1_overdue_critical_witness :
    (⟨-86400000000000⟩ : GoTime).ns + nsPerDay ≤ (⟨0⟩ : GoTime).ns ∧
    (daysUntilOf ⟨-86400000000000⟩ ⟨0⟩ < 0 ∧
      formatPaymentMessage "vdsina" ⟨-86400000000000⟩ ⟨0⟩ =
        "🚨🚨🚨 CRITICAL: Provider vdsina - Payment overdue! Payment date was 1969-12-31 (1 days ago). Urgent action required!") :=
  ⟨by decide, c1_overdue_critical "vdsina" ⟨-86400000000000⟩ ⟨0⟩ (by decide)⟩

/-- C3: `daysUntil` of exactly 0, 1 or 2 yields the Urgent (WARNING)
template; 3, 4 or 5 the Attention template; 6 or more the Informational
template, each rendering the due date through `formatDate`
(`YYYY-MM-DD`). -/
theorem c3_severity_tiers (name : String) (due now : GoTime) :
    (daysUntilOf due now = 0 ∨ daysUntilOf due now = 1 ∨ daysUntilOf due now = 2 →
      formatPaymentMessage name due now =
        "🚨 WARNING: Provider " ++ name ++ " - Urgent payment required! Payment due date: "
          ++ formatDate due ++ " (" ++ toString (daysUntilOf due now) ++ " day(s) left)") ∧
    (daysUntilOf due now = 3 ∨ daysUntilOf due now = 4 ∨ daysUntilOf due now = 5 →
      formatPaymentMessage name due now =
        "⚠️ ATTENTION: Provider " ++ name ++ " - Payment due soon! Payment date: "
          ++ formatDate due ++ " (" ++ toString (daysUntilOf due now) ++ " days left)") ∧
    (6 ≤ daysUntilOf due now →
      formatPaymentMessage name due now =
        "ℹ️ INFO: Provider " ++ name ++ " - Next payment date: " ++ formatDate due
          ++ " (" ++ toString (daysUntilOf due now) ++ " days left)") :=
  ⟨fun h => formatPaymentMessage_urgent name due now (by omega) (by omega),
   fun h => formatPaymentMessage_attention name due now (by omega) (by omega),
   fun h => formatPaymentMessage_info name due now h⟩

/-- Witness for C3: the boundary values 0, 3 and 6 hit the WARNING,
ATTENTION and INFO templates respectively. -/
theorem c3_severity_tiers_witness :
    formatPaymentMessage "vdsina" ⟨0⟩ ⟨0⟩ =
      "🚨 WARNING: Provider vdsina - Urgent payment required! Payment due date: 1970-01-01 (0 day(s) left)" ∧
    formatPaymentMessage "vdsina" ⟨259200000000000⟩ ⟨0⟩ =
      "⚠️ ATTENTION: Provider vdsina - Payment due soon! Payment date: 1970-01-04 (3 days left)" ∧
    formatPaymentMessage "vdsina" ⟨518400000000000⟩ ⟨0⟩ =
      "ℹ️ INFO: Provider vdsina - Next payment date: 1970-01-07 (6 days left)" :=
  ⟨(c3_severity_tiers "vdsina" ⟨0⟩ ⟨0⟩).1 (Or.inl (by decide)),
   (c3_severity_tiers "vdsina" ⟨259200000000000⟩ ⟨0⟩).2.1 (Or.inl (by decide)),
   (c3_severity_tiers "vdsina" ⟨518400000000000⟩ ⟨0⟩).2.2 (by decide)⟩

/-- C2 (counterexample): the claim fails as stated for oneprovider.  An
upstream page holding a single unpaid invoice whose `due_date` is the
empty string is skipped by the scan (`Status == "Unpaid" && DueDate != ""`),
so `GetNextPaymentDate` returns no date at all and the cycle's
notification is the "no payment due" message — not a Critical one. -/
theorem c2_counterexample :
    oneproviderGetNextPaymentDateFrom
        (fun _ _ => .ok ([{ id := "1", status := "Unpaid", creationDate := "", dueDate := "",
                            paidDate := "", subTotal := "", tax := "", tax2 := "",
                            credit := "", balance := "" }], 1)) = .ok none ∧
    providerNotification "oneprovider" (.ok none) ⟨0⟩ =
      "Provider " ++ "oneprovider" ++ ": no payment due" :=
  ⟨rfl, rfl⟩

/-- C2 (amended): vdsina treats a null or empty forecast as
overdue-as-of-yesterday, so its notification is the Critical message
whenever it is formatted at or after the fetch; oneprovider instead
skips unpaid invoices with an empty `due_date`, reports no date when
only such invoices (or paid ones) are present, and the notification is
the "no payment due" message. -/
theorem c2_missing_due_date (forecast : Option String) (now nowF : GoTime)
    (invs : List Invoice) (t : Int)
    (hf : forecast = none ∨ forecast = some "")
    (hn : now.ns ≤ nowF.ns)
    (hi : ∀ inv ∈ invs, inv.status = "Unpaid" → inv.dueDate = "") :
    vdsinaGetNextPaymentDate forecast now = .ok (some ⟨now.ns - nsPerDay⟩) ∧
    formatPaymentMessage "vdsina" ⟨now.ns - nsPerDay⟩ nowF =
      "🚨🚨🚨 CRITICAL: Provider " ++ "vdsina" ++ " - Payment overdue! Payment date was "
        ++ formatDate ⟨now.ns - nsPerDay⟩ ++ " ("
        ++ toString (-(daysUntilOf ⟨now.ns - nsPerDay⟩ nowF))
        ++ " days ago). Urgent action required!" ∧
    oneproviderGetNextPaymentDate (.ok (invs, t)) = .ok none ∧
    providerNotification "oneprovider" (.ok none) nowF =
      "Provider " ++ "oneprovider" ++ ": no payment due" := by
  refine ⟨?_, ?_, ?_, rfl⟩
  · rcases hf with h | h <;> subst h <;> rfl
  · exact formatPaymentMessage_critical "vdsina" ⟨now.ns - nsPerDay⟩ nowF
      (daysUntilOf_neg (by show now.ns - nsPerDay + nsPerDay ≤ nowF.ns; omega))
  · show (if invs.length = 0 then Except.ok none else findEarliest invs none) = .ok none
    split
    · rfl
    · exact findEarliest_skip invs none fun inv hm hc => by
        have := hi inv hm hc.1
        exact hc.2 this

/-- Witness for C2: a null forecast at time zero yields yesterday and
the Critical message; a single paid invoice yields no date and the
"no payment due" notification. -/
theorem c2_missing_due_date_witness :
    vdsinaGetNextPaymentDate none ⟨0⟩ = .ok (some ⟨(0 : Int) - nsPerDay⟩) ∧
    formatPaymentMessage "vdsina" ⟨(0 : Int) - nsPerDay⟩ ⟨0⟩ =
      "🚨🚨🚨 CRITICAL: Provider " ++ "vdsina" ++ " - Payment overdue! Payment date was "
        ++ formatDate ⟨(0 : Int) - nsPerDay⟩ ++ " ("
        ++ toString (-(daysUntilOf ⟨(0 : Int) - nsPerDay⟩ ⟨0⟩))
        ++ " days ago). Urgent action required!" ∧
    oneproviderGetNextPaymentDate
        (.ok ([{ id := "7", status := "Paid", creationDate := "", dueDate := "2024-01-01",
                 paidDate := "2024-01-01", subTotal := "", tax := "", tax2 := "",
                 credit := "", balance := "" }], 1)) = .ok none ∧
    providerNotification "oneprovider" (.ok none) ⟨0⟩ =
      "Provider " ++ "oneprovider" ++ ": no payment due" :=
  c2_missing_due_date none ⟨0⟩ ⟨0⟩
    [{ id := "7", status := "Paid", creationDate := "", dueDate := "2024-01-01",
       paidDate := "2024-01-01", subTotal := "", tax := "", tax2 := "",
       credit := "", balance := "" }] 1
    (Or.inl rfl) (by decide) (by decide)

/-- C4: construction fails (Go panics, embedded as `Except.error`) if
and only if the channel is nil, the converter is nil, or no complete
credential slot is present; construction is pure — in particular, on
success the stored channel is exactly the caller's channel, its queued
contents untouched, so no configuration error ever reaches the delivery
channel, and no background work is involved. -/
theorem c4_construction_validation {T : Type} (config : Config)
    (mc : Option (Chan T)) (conv : Option (String → T)) :
    ((∃ e, newVPSMonitor config mc conv = .error e) ↔
      (mc = none ∨ conv = none ∨
        (config.vdsinaAPIKey = "" ∧
          (config.oneProviderAPIKey = "" ∨ config.oneProviderClientKey = "")))) ∧
    (∀ ch f m, mc = some ch → conv = some f →
      newVPSMonitor config mc conv = .ok m → m.messageChan = ch) := by
  cases mc with
  | none =>
    refine ⟨⟨fun _ => Or.inl rfl, fun _ => ⟨"messageChan is required", rfl⟩⟩, ?_⟩
    intro ch f m hch
    exact absurd hch (by simp)
  | some ch0 =>
    cases conv with
    | none =>
      refine ⟨⟨fun _ => Or.inr (Or.inl rfl), fun _ => ⟨"messageConverter is required", rfl⟩⟩, ?_⟩
      intro ch f m _ hcv
      exact absurd hcv (by simp)
    | some f0 =>
      by_cases hc : (config.oneProviderAPIKey = "" ∨ config.oneProviderClientKey = "")
          ∧ config.vdsinaAPIKey = ""
      · refine ⟨⟨fun _ => Or.inr (Or.inr ⟨hc.2, hc.1⟩),
          fun _ => ⟨"OneProviderAPIKey and OneProviderClientKey or VdsinaAPIKey are required", ?_⟩⟩, ?_⟩
        · show (if (config.oneProviderAPIKey = "" ∨ config.oneProviderClientKey = "")
              ∧ config.vdsinaAPIKey = "" then
                Except.error "OneProviderAPIKey and OneProviderClientKey or VdsinaAPIKey are required"
              else _) = _
          rw [if_pos hc]
        · intro ch f m _ _ hok
          rw [show newVPSMonitor config (some ch0) (some f0) =
              Except.error "OneProviderAPIKey and OneProviderClientKey or VdsinaAPIKey are required"
            from by
              show (if _ then _ else _) = _
              rw [if_pos hc]] at hok
          cases hok
      · constructor
        · constructor
          · rintro ⟨e, he⟩
            rw [show newVPSMonitor config (some ch0) (some f0) = Except.ok _ from by
              show (if _ then _ else _) = _
              rw [if_neg hc]] at he
            cases he
          · rintro (h | h | h)
            · cases h
            · cases h
            · exact absurd ⟨h.2, h.1⟩ hc
        · rintro ch f m hch hcv hok
          injection hch with hch
          subst hch
          rw [show newVPSMonitor config (some ch0) (some f0) = Except.ok _ from by
            show (if _ then _ else _) = _
            rw [if_neg hc]] at hok
          injection hok with hok
          subst hok
          rfl

/-- Witness for C4: with no credential slot filled construction fails;
with a vdsina key present it succeeds and stores the caller's channel
with its contents untouched. -/
theorem c4_construction_validation_witness :
    (∃ e, newVPSMonitor (T := String) ⟨"", "", "", 0⟩ (some ⟨1, []⟩) (some fun s => s)
        = .error e) ∧
    ({ vdsina := some ⟨"k"⟩, oneProvider := none, checkInterval := defaultCheckInterval,
       messageChan := ⟨1, []⟩, messageConverter := fun s => s, cancelled := false } :
        Monitor String).messageChan = ⟨1, []⟩ :=
  ⟨(c4_construction_validation ⟨"", "", "", 0⟩ (some ⟨1, []⟩) (some fun s => s)).1.mpr
      (Or.inr (Or.inr ⟨rfl, Or.inl rfl⟩)),
   (c4_construction_validation ⟨"k", "", "", 0⟩ (some ⟨1, []⟩) (some fun s => s)).2
      ⟨1, []⟩ (fun s => s) _ rfl rfl rfl⟩

/-- C5: in a cycle where both providers are configured, vdsina's query
fails and oneprovider's succeeds, the cycle produces exactly the
two-element notification list — the error-shaped message for vdsina
first, then oneprovider's success-shaped message — and the second never
has the error shape (it cannot begin with the `E` every error
notification begins with).  The cycle is a total function of the two
outcomes: a failure is turned into a notification, never thrown. -/
theorem c5_error_isolation {T : Type} (m : Monitor T) (e : String) (v : Option GoTime)
    (now : GoTime) (p1 : VdsinaProvider) (p2 : OneProviderData)
    (h1 : m.vdsina = some p1) (h1c : p1.isConfigured = true)
    (h2 : m.oneProvider = some p2) (h2c : p2.isConfigured = true) :
    cycleNotifications m (.error e) (.ok v) now =
      ["Error checking payment date for provider " ++ "vdsina" ++ ": " ++ e,
       providerNotification "oneprovider" (.ok v) now] ∧
    headChar ("Error checking payment date for provider " ++ "vdsina" ++ ": " ++ e)
      = some 'E' ∧
    headChar (providerNotification "oneprovider" (.ok v) now) ≠ some 'E' := by
  refine ⟨?_, headChar_error_notification "vdsina" e, headChar_ok_notification_ne _ _ _⟩
  unfold cycleNotifications
  rw [h1, h2]
  simp [h1c, h2c, providerNotification]

/-- Witness for C5: a concrete two-provider monitor with a failing
vdsina query and a succeeding oneprovider query yields exactly the two
notifications in registration order. -/
theorem c5_error_isolation_witness :
    cycleNotifications
        ({ vdsina := some ⟨"k"⟩, oneProvider := some ⟨"a", "b"⟩,
           checkInterval := defaultCheckInterval, messageChan := ⟨2, []⟩,
           messageConverter := fun s => s, cancelled := false } : Monitor String)
        (.error "connection refused") (.ok none) ⟨0⟩ =
      ["Error checking payment date for provider " ++ "vdsina" ++ ": " ++ "connection refused",
       providerNotification "oneprovider" (.ok none) ⟨0⟩] ∧
    headChar ("Error checking payment date for provider " ++ "vdsina" ++ ": "
        ++ "connection refused") = some 'E' ∧
    headChar (providerNotification "oneprovider" (.ok none) ⟨0⟩) ≠ some 'E' :=
  c5_error_isolation _ "connection refused" none ⟨0⟩ ⟨"k"⟩ ⟨"a", "b"⟩ rfl (by decide) rfl (by decide)

/-- C6: `sendMessage` converts the text once with the converter and
makes a single non-blocking enqueue attempt: when the buffer is below
capacity the converted message is appended, otherwise the channel is
left exactly as it was; the capacity never changes and no error value
exists in the signature. -/
theorem c6_send_nonblocking {T : Type} (m : Monitor T) (text : String) :
    (sendMessage m text).messageChan.buffer =
      (if m.messageChan.buffer.length < m.messageChan.capacity
        then m.messageChan.buffer ++ [m.messageConverter text]
        else m.messageChan.buffer) ∧
    (sendMessage m text).messageChan.capacity = m.messageChan.capacity := by
  unfold sendMessage Chan.trySend
  by_cases h : m.messageChan.buffer.length < m.messageChan.capacity <;> simp [h]

/-- C7: a successful oneprovider query over invoices none of which is
unpaid with a non-empty due date yields no payment date, and the cycle's
notification for it is the "no payment due" message (not an error, not a
Critical message). -/
theorem c7_no_payment_due (invs : List Invoice) (t : Int) (now : GoTime)
    (h : ∀ inv ∈ invs, ¬(inv.status = "Unpaid" ∧ inv.dueDate ≠ "")) :
    oneproviderGetNextPaymentDate (.ok (invs, t)) = .ok none ∧
    providerNotification "oneprovider" (.ok none) now =
      "Provider " ++ "oneprovider" ++ ": no payment due" := by
  refine ⟨?_, rfl⟩
  show (if invs.length = 0 then Except.ok none else findEarliest invs none) = .ok none
  split
  · rfl
  · exact findEarliest_skip invs none h

/-- Witness for C7: a single paid invoice yields no date and the
"no payment due" notification. -/
theorem c7_no_payment_due_witness :
    oneproviderGetNextPaymentDate
        (.ok ([{ id := "9", status := "Paid", creationDate := "", dueDate := "2024-06-01",
                 paidDate := "2024-06-01", subTotal := "", tax := "", tax2 := "",
                 credit := "", balance := "" }], 1)) = .ok none ∧
    providerNotification "oneprovider" (.ok none) ⟨0⟩ =
      "Provider " ++ "oneprovider" ++ ": no payment due" :=
  c7_no_payment_due
    [{ id := "9", status := "Paid", creationDate := "", dueDate := "2024-06-01",
       paidDate := "2024-06-01", subTotal := "", tax := "", tax2 := "",
       credit := "", balance := "" }] 1 ⟨0⟩ (by decide)

/-- C8: whenever construction succeeds, the monitor's check interval is
the 12-hour default exactly when `config.CheckInterval` is zero, and
`config.CheckInterval` unchanged otherwise. -/
theorem c8_check_interval {T : Type} (config : Config) (ch : Chan T) (f : String → T)
    (m : Monitor T) (h : newVPSMonitor config (some ch) (some f) = .ok m) :
    m.checkInterval =
      if config.checkInterval = 0 then defaultCheckInterval else config.checkInterval := by
  rw [show newVPSMonitor config (some ch) (some f) =
      (if (config.oneProviderAPIKey = "" ∨ config.oneProviderClientKey = "")
          ∧ config.vdsinaAPIKey = "" then
        Except.error "OneProviderAPIKey and OneProviderClientKey or VdsinaAPIKey are required"
      else Except.ok
        { vdsina := if config.vdsinaAPIKey ≠ "" then vdsinaNew config.vdsinaAPIKey else none
          oneProvider :=
            if config.oneProviderAPIKey ≠ "" ∧ config.oneProviderClientKey ≠ "" then
              oneproviderNew config.oneProviderAPIKey config.oneProviderClientKey
            else none
          checkInterval :=
            if config.checkInterval = 0 then defaultCheckInterval else config.checkInterval
          messageChan := ch
          messageConverter := f
          cancelled := false }) from rfl] at h
  split at h
  · cases h
  · injection h with h
    subst h
    rfl

/-- Witness for C8: a zero interval resolves to the 12-hour default. -/
theorem c8_check_interval_witness :
    ({ vdsina := some ⟨"k"⟩, oneProvider := none, checkInterval := defaultCheckInterval,
       messageChan := ⟨1, []⟩, messageConverter := fun s => s, cancelled := false } :
        Monitor String).checkInterval =
      if (0 : Int) = 0 then defaultCheckInterval else (0 : Int) :=
  c8_check_interval ⟨"k", "", "", 0⟩ ⟨1, []⟩ (fun s => s) _ rfl

/-- Over a trace of tick events followed by cancellation, the loop body
produces exactly one cycle per tick, numbered consecutively, and nothing
from any event after the cancellation. -/
lemma loopNotifications_ticks (env : Nat → List String) (pre post : List LoopEvent)
    (h : ∀ ev ∈ pre, ev = LoopEvent.tick) (n : Nat) :
    loopNotifications env (pre ++ LoopEvent.cancel :: post) n =
      (List.range' n pre.length).flatMap env := by
  induction pre generalizing n with
  | nil => rfl
  | cons ev rest ih =>
    have hev := h ev (List.mem_cons_self ev rest)
    subst hev
    show env n ++ loopNotifications env (rest ++ LoopEvent.cancel :: post) (n + 1) = _
    rw [ih (fun e he => h e (List.mem_cons_of_mem _ he)) (n + 1)]
    show _ = (List.range' n (rest.length + 1)).flatMap env
    rw [List.range'_succ]
    simp

/-- C9: over any trace consisting of ticks followed by a cancellation
and then arbitrary further events, the loop emits the initial cycle
(cycle 0) immediately and then exactly one cycle per tick, in order —
`env 0, env 1, …` — and nothing after the cancellation (the trace beyond
the cancel is irrelevant); `Stop` only sets the cancellation flag, so it
is idempotent and safe on a monitor that was never started. -/
theorem c9_loop_lifecycle {T : Type} (env : Nat → List String) (pre post : List LoopEvent)
    (m : Monitor T) (h : ∀ ev ∈ pre, ev = LoopEvent.tick) :
    runPaymentDateCheck env (pre ++ LoopEvent.cancel :: post) =
      (List.range (pre.length + 1)).flatMap env ∧
    runPaymentDateCheck env (pre ++ LoopEvent.cancel :: post) =
      runPaymentDateCheck env (pre ++ [LoopEvent.cancel]) ∧
    stopMonitor (stopMonitor m) = stopMonitor m ∧
    (stopMonitor m).cancelled = true := by
  have key : ∀ post' : List LoopEvent,
      runPaymentDateCheck env (pre ++ LoopEvent.cancel :: post') =
        (List.range (pre.length + 1)).flatMap env := by
    intro post'
    unfold runPaymentDateCheck
    rw [loopNotifications_ticks env pre post' h 1, List.range_eq_range', List.range'_succ]
    simp
  exact ⟨key post, by rw [key post, ← key []], rfl, rfl⟩

/-- Witness for C9: two ticks before cancellation give cycles 0, 1 and 2
regardless of events after the cancel. -/
theorem c9_loop_lifecycle_witness :
    runPaymentDateCheck (fun n => [toString n])
        ([LoopEvent.tick, LoopEvent.tick] ++ LoopEvent.cancel :: [LoopEvent.tick]) =
      (List.range ([LoopEvent.tick, LoopEvent.tick].length + 1)).flatMap
        (fun n => [toString n]) ∧
    runPaymentDateCheck (fun n => [toString n])
        ([LoopEvent.tick, LoopEvent.tick] ++ LoopEvent.cancel :: [LoopEvent.tick]) =
      runPaymentDateCheck (fun n => [toString n])
        ([LoopEvent.tick, LoopEvent.tick] ++ [LoopEvent.cancel]) ∧
    stopMonitor (stopMonitor
        ({ vdsina := some ⟨"k"⟩, oneProvider := none, checkInterval := defaultCheckInterval,
           messageChan := ⟨1, []⟩, messageConverter := fun s => s, cancelled := false } :
          Monitor String)) =
      stopMonitor
        ({ vdsina := some ⟨"k"⟩, oneProvider := none, checkInterval := defaultCheckInterval,
           messageChan := ⟨1, []⟩, messageConverter := fun s => s, cancelled := false } :
          Monitor String) ∧
    (stopMonitor
        ({ vdsina := some ⟨"k"⟩, oneProvider := none, checkInterval := defaultCheckInterval,
           messageChan := ⟨1, []⟩, messageConverter := fun s => s, cancelled := false } :
          Monitor String)).cancelled = true :=
  c9_loop_lifecycle (fun n => [toString n]) [LoopEvent.tick, LoopEvent.tick] [LoopEvent.tick]
    _ (by decide)

/-- C10: oneprovider's `GetNextPaymentDate` consults the upstream only
through the single call `fetchinvoicesPage(ctx, 1, 20)` and discards the
reported `total_pages`: two upstreams whose first pages (page 1,
limit 20) hold the same invoices — even with different page totals, and
regardless of what any other page holds — give identical results. -/
theorem c10_first_page_only (f g : Int → Int → Except String (List Invoice × Int))
    (invs : List Invoice) (t1 t2 : Int)
    (hf : f 1 20 = .ok (invs, t1)) (hg : g 1 20 = .ok (invs, t2)) :
    oneproviderGetNextPaymentDateFrom f = oneproviderGetNextPaymentDateFrom g := by
  unfold oneproviderGetNextPaymentDateFrom
  rw [hf, hg]
  rfl

/-- Witness for C10: an upstream with an empty first page but an unpaid
invoice on page 2 and total 3 agrees with one that has nothing at all
and total 7. -/
theorem c10_first_page_only_witness :
    oneproviderGetNextPaymentDateFrom
        (fun p _ => if p = 1 then .ok ([], 3)
          else .ok ([{ id := "2", status := "Unpaid", creationDate := "",
                       dueDate := "2024-06-01", paidDate := "", subTotal := "", tax := "",
                       tax2 := "", credit := "", balance := "" }], 3)) =
      oneproviderGetNextPaymentDateFrom (fun _ _ => .ok ([], 7)) :=
  c10_first_page_only _ _ [] 3 7 rfl rfl
